import Mathlib

/-!
Shallow embedding of the peladas-manager backend (FastAPI + SQLAlchemy,
`src/backend/app`), covering the data model (`models/entities.py`,
`models/database.py`), the request handlers of `routes/jogadores.py`,
`routes/gols.py`, `routes/partidas.py` and `routes/peladas.py`, and the
request/update schemas of `schemas.py`.

Modelling conventions:
* The relational store is a `DB` structure of four lists (one per table),
  in table insertion order; primary keys are auto-assigned as max id + 1,
  matching SQLite rowid assignment for these append-only id columns.
* `DateTime` values are integers (seconds).  The ORM-managed audit
  columns are modelled: inserts set `data_criacao`/`data_cadastro` (and
  `data_atualizacao`) to the request time `now`, and the
  `onupdate=datetime.utcnow` of `data_atualizacao` fires exactly when the
  UPDATE statement is emitted, i.e. when the row has a net change
  (SQLAlchemy prunes dirty objects without net changes at flush).
* A handler returns the new stored state paired with a `HandlerResult`:
  `ok code body` for a 2xx response, `clientError code detail` for a
  raised `HTTPException`, `unhandled msg` for an exception that escapes
  the handler (no try/except around the write).
* Persistence failures are modelled by a `commit : Option String`
  argument: `none` means `db.commit()` succeeds, `some msg` means it
  raises an exception whose message is `msg`.  A failed or never-reached
  commit leaves the stored state unchanged (the session is discarded by
  `get_db`), whether or not the handler catches the exception.
* Pydantic update schemas model a provided field as `some value`;
  explicit JSON `null`s for non-nullable columns are not modelled.
-/

namespace Peladas

/-- `StatusPelada` enum from `models/entities.py`. -/
inductive StatusPelada where
  | PLANEJADA
  | CONFIRMADA
  | EM_ANDAMENTO
  | FINALIZADA
  | CANCELADA
  deriving Repr, DecidableEq

/-- `StatusPartida` enum from `models/entities.py`. -/
inductive StatusPartida where
  | AGENDADA
  | EM_ANDAMENTO
  | FINALIZADA
  | CANCELADA
  deriving Repr, DecidableEq

/-- `Jogador` row (`models/database.py`, identical to the copy in
`models/entities.py`). -/
structure Jogador where
  id : Nat
  nome : String
  email : String
  telefone : Option String
  posicao_preferida : Option String
  nivel_habilidade : Int
  ativo : Bool
  data_cadastro : Int
  deriving Repr, DecidableEq

/-- `Pelada` row (`models/entities.py`). -/
structure Pelada where
  id : Nat
  nome : String
  descricao : Option String
  data_evento : Int
  -- source column name is `local`, a Lean keyword
  local_pelada : String
  max_jogadores : Int
  valor_por_jogador : Int
  status : StatusPelada
  data_criacao : Int
  data_atualizacao : Int
  deriving Repr, DecidableEq

/-- `Partida` row (`models/entities.py`). -/
structure Partida where
  id : Nat
  nome : Option String
  pelada_id : Nat
  horario_inicio : Option Int
  horario_fim : Option Int
  horario_previsto : Int
  nome_time_a : String
  nome_time_b : String
  gols_time_a : Int
  gols_time_b : Int
  observacoes : Option String
  status : StatusPartida
  data_criacao : Int
  data_atualizacao : Int
  deriving Repr, DecidableEq

/-- `Gol` row (`models/entities.py`). -/
structure Gol where
  id : Nat
  partida_id : Nat
  jogador_id : Nat
  minuto : Int
  time : String
  descricao : Option String
  data_criacao : Int
  deriving Repr, DecidableEq

/-- The four tables created by `database.create_tables`. -/
structure DB where
  jogadores : List Jogador
  peladas : List Pelada
  partidas : List Partida
  gols : List Gol
  deriving Repr, DecidableEq

/-- Outcome of one HTTP request handler. -/
inductive HandlerResult (α : Type) where
  | ok : Nat → α → HandlerResult α
  | clientError : Nat → String → HandlerResult α
  | unhandled : String → HandlerResult α
  deriving Repr, DecidableEq

/-- Auto-assigned primary key: one more than the largest id in the table. -/
def nextId (ids : List Nat) : Nat := ids.foldr max 0 + 1

/-- `UPDATE ... WHERE f y = i`: replace the row(s) with key `i` by `x`. -/
def updateById {α : Type} (f : α → Nat) (i : Nat) (x : α) (l : List α) : List α :=
  l.map (fun y => if f y == i then x else y)

/-- `DELETE ... WHERE f y = i`: drop the row(s) with key `i`. -/
def removeById {α : Type} (f : α → Nat) (i : Nat) (l : List α) : List α :=
  l.filter (fun y => f y != i)

/-- Commit semantics of `Partida.data_atualizacao`
(`onupdate=datetime.utcnow`, `entities.py:151`): the mutated row `row`
replaces the loaded row `old`; the audit column is refreshed iff the row
has a net change, because only then is an UPDATE emitted at flush. -/
def touchPartida (now : Int) (old row : Partida) : Partida :=
  { row with data_atualizacao := if row = old then row.data_atualizacao else now }

/-- Commit semantics of `Pelada.data_atualizacao`
(`onupdate=datetime.utcnow`, `entities.py:97`). -/
def touchPelada (now : Int) (old row : Pelada) : Pelada :=
  { row with data_atualizacao := if row = old then row.data_atualizacao else now }

/-! ## Player routes (`routes/jogadores.py`) -/

/-- `JogadorCreate` schema (`schemas.py`). -/
structure JogadorCreate where
  nome : String
  email : String
  telefone : Option String
  posicao_preferida : Option String
  nivel_habilidade : Int
  deriving Repr, DecidableEq

/-- `JogadorUpdate` schema (`schemas.py`): every field optional,
`exclude_unset` drops the absent ones. -/
structure JogadorUpdate where
  nome : Option String
  email : Option String
  telefone : Option String
  posicao_preferida : Option String
  nivel_habilidade : Option Int
  ativo : Option Bool
  deriving Repr, DecidableEq

/-- `POST /jogadores/` (`criar_jogador`).  Rejects a duplicate email with
400 before writing; otherwise inserts.  There is no try/except around the
write: a commit failure escapes the handler. -/
def criar_jogador (jogador : JogadorCreate) (now : Int) (commit : Option String)
    (db : DB) : DB × HandlerResult Jogador :=
  match db.jogadores.find? (fun j => j.email == jogador.email) with
  | some _ => (db, .clientError 400 "Email já cadastrado")
  | none =>
    let db_jogador : Jogador :=
      { id := nextId (db.jogadores.map Jogador.id)
        nome := jogador.nome
        email := jogador.email
        telefone := jogador.telefone
        posicao_preferida := jogador.posicao_preferida
        nivel_habilidade := jogador.nivel_habilidade
        ativo := true
        data_cadastro := now }
    match commit with
    | some msg => (db, .unhandled msg)
    | none => ({ db with jogadores := db.jogadores ++ [db_jogador] }, .ok 201 db_jogador)

/-- `GET /jogadores/` (`listar_jogadores`): optional active-only filter
(default `true`), then `offset skip` and `limit`. -/
def listar_jogadores (skip limit : Nat) (ativo : Bool) (db : DB) : List Jogador :=
  let query := if ativo then db.jogadores.filter (fun j => j.ativo) else db.jogadores
  (query.drop skip).take limit

/-- `GET /jogadores/{jogador_id}` (`obter_jogador`). -/
def obter_jogador (jogador_id : Nat) (db : DB) : HandlerResult Jogador :=
  match db.jogadores.find? (fun j => j.id == jogador_id) with
  | none => .clientError 404 "Jogador não encontrado"
  | some jogador => .ok 200 jogador

/-- `PUT /jogadores/{jogador_id}` (`atualizar_jogador`): partial
overwrite of provided fields.  No try/except around the write. -/
def atualizar_jogador (jogador_id : Nat) (u : JogadorUpdate) (commit : Option String)
    (db : DB) : DB × HandlerResult Jogador :=
  match db.jogadores.find? (fun j => j.id == jogador_id) with
  | none => (db, .clientError 404 "Jogador não encontrado")
  | some jogador =>
    let jogador2 : Jogador :=
      { jogador with
        nome := u.nome.getD jogador.nome
        email := u.email.getD jogador.email
        telefone := u.telefone.orElse (fun _ => jogador.telefone)
        posicao_preferida := u.posicao_preferida.orElse (fun _ => jogador.posicao_preferida)
        nivel_habilidade := u.nivel_habilidade.getD jogador.nivel_habilidade
        ativo := u.ativo.getD jogador.ativo }
    match commit with
    | some msg => (db, .unhandled msg)
    | none =>
      ({ db with jogadores := updateById Jogador.id jogador_id jogador2 db.jogadores },
       .ok 200 jogador2)

/-- `DELETE /jogadores/{jogador_id}` (`deletar_jogador`): soft delete,
sets `ativo := false` and keeps the row.  No try/except around the write. -/
def deletar_jogador (jogador_id : Nat) (commit : Option String) (db : DB) :
    DB × HandlerResult String :=
  match db.jogadores.find? (fun j => j.id == jogador_id) with
  | none => (db, .clientError 404 "Jogador não encontrado")
  | some jogador =>
    let jogador2 : Jogador := { jogador with ativo := false }
    match commit with
    | some msg => (db, .unhandled msg)
    | none =>
      ({ db with jogadores := updateById Jogador.id jogador_id jogador2 db.jogadores },
       .ok 200 "Jogador desativado com sucesso")

/-! ## Goal routes (`routes/gols.py`) -/

/-- `GolCreate` schema (`schemas.py`). -/
structure GolCreate where
  minuto : Int
  time : String
  descricao : Option String
  partida_id : Nat
  jogador_id : Nat
  deriving Repr, DecidableEq

/-- `GolUpdate` schema (`schemas.py`): only `minuto`, `time` and
`descricao` are updatable; note `time` is a plain optional string with no
membership check. -/
structure GolUpdate where
  minuto : Option Int
  time : Option String
  descricao : Option String
  deriving Repr, DecidableEq

/-- Message of the `AttributeError` raised when a goal's parent match row
is missing and the handler dereferences `None` (paraphrased). -/
def noneTypeError : String := "NoneType object has no attribute gols_time_a"

/-- `POST /gols/` (`criar_gol`): checks the match and player exist, checks
`time ∈ {A, B}`, inserts the goal and increments the matching score
counter, all inside try/except-rollback. -/
def criar_gol (gol : GolCreate) (now : Int) (commit : Option String) (db : DB) :
    DB × HandlerResult Gol :=
  match db.partidas.find? (fun p => p.id == gol.partida_id) with
  | none => (db, .clientError 404 "Partida não encontrada")
  | some partida =>
    match db.jogadores.find? (fun j => j.id == gol.jogador_id) with
    | none => (db, .clientError 404 "Jogador não encontrado")
    | some _ =>
      if gol.time != "A" && gol.time != "B" then
        (db, .clientError 400 "Time deve ser A ou B")
      else
        let db_gol : Gol :=
          { id := nextId (db.gols.map Gol.id)
            partida_id := gol.partida_id
            jogador_id := gol.jogador_id
            minuto := gol.minuto
            time := gol.time
            descricao := gol.descricao
            data_criacao := now }
        let partida2 := touchPartida now partida
          (if gol.time == "A" then { partida with gols_time_a := partida.gols_time_a + 1 }
           else { partida with gols_time_b := partida.gols_time_b + 1 })
        match commit with
        | some msg => (db, .clientError 400 ("Erro ao registrar gol: " ++ msg))
        | none =>
          ({ db with
              gols := db.gols ++ [db_gol]
              partidas := updateById Partida.id gol.partida_id partida2 db.partidas },
           .ok 201 db_gol)

/-- `GET /gols/` (`listar_gols`): optional match / player filters, then
`offset`/`limit`.  A filter id of `0` is falsy in Python and disables the
filter, exactly like `None`. -/
def listar_gols (partida_id jogador_id : Nat) (skip limit : Nat) (db : DB) : List Gol :=
  let q1 := if partida_id != 0 then db.gols.filter (fun g => g.partida_id == partida_id)
            else db.gols
  let q2 := if jogador_id != 0 then q1.filter (fun g => g.jogador_id == jogador_id) else q1
  (q2.drop skip).take limit

/-- `GET /gols/{gol_id}` (`obter_gol`). -/
def obter_gol (gol_id : Nat) (db : DB) : HandlerResult Gol :=
  match db.gols.find? (fun g => g.id == gol_id) with
  | none => .clientError 404 "Gol não encontrado"
  | some gol => .ok 200 gol

/-- `PUT /gols/{gol_id}` (`atualizar_gol`): partial overwrite; if the
provided `time` differs from the old one, moves one unit between the
parent match's two counters (`gols_time_a` for new value `A`,
`gols_time_b` for any other new value).  Inside try/except-rollback. -/
def atualizar_gol (gol_id : Nat) (gol_update : GolUpdate) (now : Int)
    (commit : Option String) (db : DB) : DB × HandlerResult Gol :=
  match db.gols.find? (fun g => g.id == gol_id) with
  | none => (db, .clientError 404 "Gol não encontrado")
  | some gol =>
    let old_time := gol.time
    let gol2 : Gol :=
      { gol with
        minuto := gol_update.minuto.getD gol.minuto
        time := gol_update.time.getD gol.time
        descricao := gol_update.descricao.orElse (fun _ => gol.descricao) }
    match gol_update.time with
    | some t =>
      if t != old_time then
        match db.partidas.find? (fun p => p.id == gol.partida_id) with
        | none => (db, .clientError 400 ("Erro ao atualizar gol: " ++ noneTypeError))
        | some partida =>
          let partida1 :=
            if old_time == "A" then { partida with gols_time_a := partida.gols_time_a - 1 }
            else { partida with gols_time_b := partida.gols_time_b - 1 }
          let partida2 := touchPartida now partida
            (if gol2.time == "A" then { partida1 with gols_time_a := partida1.gols_time_a + 1 }
             else { partida1 with gols_time_b := partida1.gols_time_b + 1 })
          match commit with
          | some msg => (db, .clientError 400 ("Erro ao atualizar gol: " ++ msg))
          | none =>
            ({ db with
                gols := updateById Gol.id gol_id gol2 db.gols
                partidas := updateById Partida.id gol.partida_id partida2 db.partidas },
             .ok 200 gol2)
      else
        match commit with
        | some msg => (db, .clientError 400 ("Erro ao atualizar gol: " ++ msg))
        | none => ({ db with gols := updateById Gol.id gol_id gol2 db.gols }, .ok 200 gol2)
    | none =>
      match commit with
      | some msg => (db, .clientError 400 ("Erro ao atualizar gol: " ++ msg))
      | none => ({ db with gols := updateById Gol.id gol_id gol2 db.gols }, .ok 200 gol2)

/-- `DELETE /gols/{gol_id}` (`deletar_gol`): decrements the counter
matching the goal's side (`gols_time_a` for `A`, `gols_time_b` otherwise)
and removes the row.  Inside try/except-rollback. -/
def deletar_gol (gol_id : Nat) (now : Int) (commit : Option String) (db : DB) :
    DB × HandlerResult Unit :=
  match db.gols.find? (fun g => g.id == gol_id) with
  | none => (db, .clientError 404 "Gol não encontrado")
  | some gol =>
    match db.partidas.find? (fun p => p.id == gol.partida_id) with
    | none => (db, .clientError 400 ("Erro ao deletar gol: " ++ noneTypeError))
    | some partida =>
      let partida2 := touchPartida now partida
        (if gol.time == "A" then { partida with gols_time_a := partida.gols_time_a - 1 }
         else { partida with gols_time_b := partida.gols_time_b - 1 })
      match commit with
      | some msg => (db, .clientError 400 ("Erro ao deletar gol: " ++ msg))
      | none =>
        ({ db with
            gols := removeById Gol.id gol_id db.gols
            partidas := updateById Partida.id gol.partida_id partida2 db.partidas },
         .ok 204 ())

/-! ## Match routes (`routes/partidas.py`) -/

/-- `PartidaCreate` schema (`schemas.py`). -/
structure PartidaCreate where
  nome : Option String
  horario_previsto : Int
  nome_time_a : String
  nome_time_b : String
  observacoes : Option String
  pelada_id : Nat
  deriving Repr, DecidableEq

/-- `PartidaUpdate` schema (`schemas.py`): every field optional,
`exclude_unset` drops the absent ones. -/
structure PartidaUpdate where
  nome : Option String
  horario_inicio : Option Int
  horario_fim : Option Int
  horario_previsto : Option Int
  nome_time_a : Option String
  nome_time_b : Option String
  gols_time_a : Option Int
  gols_time_b : Option Int
  observacoes : Option String
  status : Option StatusPartida
  deriving Repr, DecidableEq

/-- `POST /partidas/` (`criar_partida`): checks the parent event exists,
then inserts with the column defaults (no timestamps, 0-0 score,
scheduled).  Inside try/except-rollback. -/
def criar_partida (partida : PartidaCreate) (now : Int) (commit : Option String)
    (db : DB) : DB × HandlerResult Partida :=
  match db.peladas.find? (fun pl => pl.id == partida.pelada_id) with
  | none => (db, .clientError 404 "Pelada não encontrada")
  | some _ =>
    let db_partida : Partida :=
      { id := nextId (db.partidas.map Partida.id)
        nome := partida.nome
        pelada_id := partida.pelada_id
        horario_inicio := none
        horario_fim := none
        horario_previsto := partida.horario_previsto
        nome_time_a := partida.nome_time_a
        nome_time_b := partida.nome_time_b
        gols_time_a := 0
        gols_time_b := 0
        observacoes := partida.observacoes
        status := StatusPartida.AGENDADA
        data_criacao := now
        data_atualizacao := now }
    match commit with
    | some msg => (db, .clientError 400 ("Erro ao criar partida: " ++ msg))
    | none => ({ db with partidas := db.partidas ++ [db_partida] }, .ok 201 db_partida)

/-- `PUT /partidas/{partida_id}` (`atualizar_partida`): partial overwrite
of provided fields (status included, unchecked).  Inside
try/except-rollback. -/
def atualizar_partida (partida_id : Nat) (u : PartidaUpdate) (now : Int)
    (commit : Option String) (db : DB) : DB × HandlerResult Partida :=
  match db.partidas.find? (fun p => p.id == partida_id) with
  | none => (db, .clientError 404 "Partida não encontrada")
  | some partida =>
    let partida2 : Partida :=
      { partida with
        nome := u.nome.orElse (fun _ => partida.nome)
        horario_inicio := u.horario_inicio.orElse (fun _ => partida.horario_inicio)
        horario_fim := u.horario_fim.orElse (fun _ => partida.horario_fim)
        horario_previsto := u.horario_previsto.getD partida.horario_previsto
        nome_time_a := u.nome_time_a.getD partida.nome_time_a
        nome_time_b := u.nome_time_b.getD partida.nome_time_b
        gols_time_a := u.gols_time_a.getD partida.gols_time_a
        gols_time_b := u.gols_time_b.getD partida.gols_time_b
        observacoes := u.observacoes.orElse (fun _ => partida.observacoes)
        status := u.status.getD partida.status }
    let partida3 := touchPartida now partida partida2
    match commit with
    | some msg => (db, .clientError 400 ("Erro ao atualizar partida: " ++ msg))
    | none =>
      ({ db with partidas := updateById Partida.id partida_id partida3 db.partidas },
       .ok 200 partida3)

/-- `DELETE /partidas/{partida_id}` (`deletar_partida`): removes the
match; the `cascade="all, delete-orphan"` of `Partida.gols`
(`entities.py:155`) removes its goals.  Inside try/except-rollback. -/
def deletar_partida (partida_id : Nat) (commit : Option String) (db : DB) :
    DB × HandlerResult Unit :=
  match db.partidas.find? (fun p => p.id == partida_id) with
  | none => (db, .clientError 404 "Partida não encontrada")
  | some _ =>
    match commit with
    | some msg => (db, .clientError 400 ("Erro ao deletar partida: " ++ msg))
    | none =>
      ({ db with partidas := removeById Partida.id partida_id db.partidas
                 gols := db.gols.filter (fun g => g.partida_id != partida_id) },
       .ok 204 ())

/-- `PATCH /partidas/{partida_id}/iniciar` (`iniciar_partida`): stamps
the start time and sets the status to in-progress.  Inside
try/except-rollback. -/
def iniciar_partida (partida_id : Nat) (now : Int) (commit : Option String)
    (db : DB) : DB × HandlerResult Partida :=
  match db.partidas.find? (fun p => p.id == partida_id) with
  | none => (db, .clientError 404 "Partida não encontrada")
  | some partida =>
    let partida2 := touchPartida now partida
      { partida with horario_inicio := some now, status := StatusPartida.EM_ANDAMENTO }
    match commit with
    | some msg => (db, .clientError 400 ("Erro ao iniciar partida: " ++ msg))
    | none =>
      ({ db with partidas := updateById Partida.id partida_id partida2 db.partidas },
       .ok 200 partida2)

/-- `PATCH /partidas/{partida_id}/finalizar` (`finalizar_partida`):
stamps the end time and sets the status to finished.  Inside
try/except-rollback. -/
def finalizar_partida (partida_id : Nat) (now : Int) (commit : Option String)
    (db : DB) : DB × HandlerResult Partida :=
  match db.partidas.find? (fun p => p.id == partida_id) with
  | none => (db, .clientError 404 "Partida não encontrada")
  | some partida =>
    let partida2 := touchPartida now partida
      { partida with horario_fim := some now, status := StatusPartida.FINALIZADA }
    match commit with
    | some msg => (db, .clientError 400 ("Erro ao finalizar partida: " ++ msg))
    | none =>
      ({ db with partidas := updateById Partida.id partida_id partida2 db.partidas },
       .ok 200 partida2)

/-- `PATCH /partidas/{partida_id}/cronometro` (`atualizar_cronometro`):
clock control with actions `play`, `pause` and `reset`; `now` is the
value of `datetime.now(timezone.utc)` at the request.  An unknown action
falls through and just commits.  Inside try/except-rollback. -/
def atualizar_cronometro (partida_id : Nat) (acao : String) (now : Int)
    (commit : Option String) (db : DB) : DB × HandlerResult Partida :=
  match db.partidas.find? (fun p => p.id == partida_id) with
  | none => (db, .clientError 404 "Partida não encontrada")
  | some partida =>
    let partida2 :=
      if acao == "play" then
        { partida with
          horario_inicio := some (partida.horario_inicio.getD now)
          status := StatusPartida.EM_ANDAMENTO }
      else if acao == "pause" then
        { partida with status := StatusPartida.EM_ANDAMENTO }
      else if acao == "reset" then
        { partida with
          horario_inicio := none
          horario_fim := none
          status := StatusPartida.AGENDADA }
      else partida
    let partida3 := touchPartida now partida partida2
    match commit with
    | some msg => (db, .clientError 400 ("Erro ao controlar cronômetro: " ++ msg))
    | none =>
      ({ db with partidas := updateById Partida.id partida_id partida3 db.partidas },
       .ok 200 partida3)

/-- `POST /partidas/{partida_id}/cronometro` (`atualizar_cronometro_post`):
compatibility wrapper; validates the action taken from the request body
(`dados.get("acao")`, `none` when absent) and delegates to the PATCH
handler. -/
def atualizar_cronometro_post (partida_id : Nat) (acao? : Option String) (now : Int)
    (commit : Option String) (db : DB) : DB × HandlerResult Partida :=
  match acao? with
  | none => (db, .clientError 400 "Ação deve ser play, pause ou reset")
  | some acao =>
    if acao != "play" && acao != "pause" && acao != "reset" then
      (db, .clientError 400 "Ação deve ser play, pause ou reset")
    else
      atualizar_cronometro partida_id acao now commit db

/-- `POST /partidas/{partida_id}/gol-rapido` (`marcar_gol_rapido`):
validates match, player and side, computes the goal minute from the
elapsed time since `horario_inicio` (Python `int()` truncates toward
zero, hence `Int.tdiv`), inserts the goal and bumps the score.  Inside
try/except-rollback. -/
def marcar_gol_rapido (partida_id jogador_id : Nat) (time : String) (now : Int)
    (commit : Option String) (db : DB) : DB × HandlerResult Gol :=
  match db.partidas.find? (fun p => p.id == partida_id) with
  | none => (db, .clientError 404 "Partida não encontrada")
  | some partida =>
    match db.jogadores.find? (fun j => j.id == jogador_id) with
    | none => (db, .clientError 404 "Jogador não encontrado")
    | some jogador =>
      if time != "A" && time != "B" then
        (db, .clientError 400 "Time deve ser A ou B")
      else
        let minuto : Int :=
          match partida.horario_inicio with
          | none => 1
          | some h0 => max 1 ((now - h0).tdiv 60)
        let gol : Gol :=
          { id := nextId (db.gols.map Gol.id)
            partida_id := partida_id
            jogador_id := jogador_id
            minuto := minuto
            time := time
            descricao := some ("Gol aos " ++ toString minuto ++ " - " ++ jogador.nome)
            data_criacao := now }
        let partida2 := touchPartida now partida
          (if time == "A" then { partida with gols_time_a := partida.gols_time_a + 1 }
           else { partida with gols_time_b := partida.gols_time_b + 1 })
        match commit with
        | some msg => (db, .clientError 400 ("Erro ao marcar gol: " ++ msg))
        | none =>
          ({ db with
              gols := db.gols ++ [gol]
              partidas := updateById Partida.id partida_id partida2 db.partidas },
           .ok 200 gol)

/-! ## Event routes (`routes/peladas.py`) -/

/-- `PeladaCreate` schema (`schemas.py`). -/
structure PeladaCreate where
  nome : String
  descricao : Option String
  data_evento : Int
  local_pelada : String
  max_jogadores : Int
  valor_por_jogador : Int
  deriving Repr, DecidableEq

/-- `PeladaUpdate` schema (`schemas.py`): every field optional,
`exclude_unset` drops the absent ones. -/
structure PeladaUpdate where
  nome : Option String
  descricao : Option String
  data_evento : Option Int
  local_pelada : Option String
  max_jogadores : Option Int
  valor_por_jogador : Option Int
  status : Option StatusPelada
  deriving Repr, DecidableEq

/-- `POST /peladas/` (`criar_pelada`): inserts with the column defaults
(status planned).  Inside try/except-rollback. -/
def criar_pelada (pelada : PeladaCreate) (now : Int) (commit : Option String)
    (db : DB) : DB × HandlerResult Pelada :=
  let db_pelada : Pelada :=
    { id := nextId (db.peladas.map Pelada.id)
      nome := pelada.nome
      descricao := pelada.descricao
      data_evento := pelada.data_evento
      local_pelada := pelada.local_pelada
      max_jogadores := pelada.max_jogadores
      valor_por_jogador := pelada.valor_por_jogador
      status := StatusPelada.PLANEJADA
      data_criacao := now
      data_atualizacao := now }
  match commit with
  | some msg => (db, .clientError 400 ("Erro ao criar pelada: " ++ msg))
  | none => ({ db with peladas := db.peladas ++ [db_pelada] }, .ok 201 db_pelada)

/-- `PUT /peladas/{pelada_id}` (`atualizar_pelada`): partial overwrite of
provided fields (status included, unchecked).  Inside
try/except-rollback. -/
def atualizar_pelada (pelada_id : Nat) (u : PeladaUpdate) (now : Int)
    (commit : Option String) (db : DB) : DB × HandlerResult Pelada :=
  match db.peladas.find? (fun pl => pl.id == pelada_id) with
  | none => (db, .clientError 404 "Pelada não encontrada")
  | some pelada =>
    let pelada2 : Pelada :=
      { pelada with
        nome := u.nome.getD pelada.nome
        descricao := u.descricao.orElse (fun _ => pelada.descricao)
        data_evento := u.data_evento.getD pelada.data_evento
        local_pelada := u.local_pelada.getD pelada.local_pelada
        max_jogadores := u.max_jogadores.getD pelada.max_jogadores
        valor_por_jogador := u.valor_por_jogador.getD pelada.valor_por_jogador
        status := u.status.getD pelada.status }
    let pelada3 := touchPelada now pelada pelada2
    match commit with
    | some msg => (db, .clientError 400 ("Erro ao atualizar pelada: " ++ msg))
    | none =>
      ({ db with peladas := updateById Pelada.id pelada_id pelada3 db.peladas },
       .ok 200 pelada3)

/-- `DELETE /peladas/{pelada_id}` (`deletar_pelada`): removes the event;
the `cascade="all, delete-orphan"` relationships `Pelada.partidas`
(`entities.py:100`) and `Partida.gols` (`entities.py:155`) also remove
the event's matches and those matches' goals.  Inside
try/except-rollback. -/
def deletar_pelada (pelada_id : Nat) (commit : Option String) (db : DB) :
    DB × HandlerResult Unit :=
  match db.peladas.find? (fun pl => pl.id == pelada_id) with
  | none => (db, .clientError 404 "Pelada não encontrada")
  | some _ =>
    match commit with
    | some msg => (db, .clientError 400 ("Erro ao deletar pelada: " ++ msg))
    | none =>
      let partidas_da_pelada := db.partidas.filter (fun p => p.pelada_id == pelada_id)
      ({ db with
          peladas := removeById Pelada.id pelada_id db.peladas
          partidas := db.partidas.filter (fun p => p.pelada_id != pelada_id)
          gols := db.gols.filter
            (fun g => !(partidas_da_pelada.any (fun p => p.id == g.partida_id))) },
       .ok 204 ())

/-! ## Generic facts about the table helpers -/

/-! ## Supporting definitions for the invariants and claim witnesses -/

/-- Number of stored goals of match `pid` credited to team side `A`. -/
def golsCountA (gols : List Gol) (pid : Nat) : Nat :=
  gols.countP (fun g => g.partida_id == pid && g.time == "A")

/-- Number of stored goals of match `pid` whose team side is not `A`. -/
def golsCountNotA (gols : List Gol) (pid : Nat) : Nat :=
  gols.countP (fun g => g.partida_id == pid && g.time != "A")

/-- Number of stored goals of match `pid` credited to team side `B`. -/
def golsCountB (gols : List Gol) (pid : Nat) : Nat :=
  gols.countP (fun g => g.partida_id == pid && g.time == "B")

/-- Primary-key uniqueness of the `gols` table. -/
def wfGolIds (db : DB) : Prop := (db.gols.map Gol.id).Nodup

/-- The counter invariant the code actually maintains: `gols_time_a`
counts the goals credited to side `A`, and `gols_time_b` counts the goals
whose side is anything other than `A`. -/
def scoreInvariant (db : DB) : Prop :=
  ∀ p ∈ db.partidas,
    p.gols_time_a = (golsCountA db.gols p.id : Int) ∧
    p.gols_time_b = (golsCountNotA db.gols p.id : Int)

/-- The invariant as the specification states it: each counter equals the
count of goals of the corresponding side (`A` resp. `B`). -/
def claimedScoreInvariant (db : DB) : Prop :=
  ∀ p ∈ db.partidas,
    p.gols_time_a = (golsCountA db.gols p.id : Int) ∧
    p.gols_time_b = (golsCountB db.gols p.id : Int)

instance (db : DB) : Decidable (wfGolIds db) :=
  inferInstanceAs (Decidable ((db.gols.map Gol.id).Nodup))

instance (db : DB) : Decidable (scoreInvariant db) :=
  inferInstanceAs (Decidable (∀ p ∈ db.partidas,
    p.gols_time_a = (golsCountA db.gols p.id : Int) ∧
    p.gols_time_b = (golsCountNotA db.gols p.id : Int)))

instance (db : DB) : Decidable (claimedScoreInvariant db) :=
  inferInstanceAs (Decidable (∀ p ∈ db.partidas,
    p.gols_time_a = (golsCountA db.gols p.id : Int) ∧
    p.gols_time_b = (golsCountB db.gols p.id : Int)))

/-- One request against the goal endpoints, together with its request
time and the outcome of its `db.commit()`. -/
inductive GolOp where
  | create (gol : GolCreate) (now : Int) (commit : Option String)
  | update (gol_id : Nat) (gol_update : GolUpdate) (now : Int) (commit : Option String)
  | delete (gol_id : Nat) (now : Int) (commit : Option String)
  deriving Repr, DecidableEq

/-- Stored state left behind by one goal-endpoint request. -/
def applyGolOp (db : DB) (op : GolOp) : DB :=
  match op with
  | .create gol now c => (criar_gol gol now c db).1
  | .update gol_id u now c => (atualizar_gol gol_id u now c db).1
  | .delete gol_id now c => (deletar_gol gol_id now c db).1

/-- Stored state after a sequence of goal-endpoint requests. -/
def applyGolOps (db : DB) (ops : List GolOp) : DB := ops.foldl applyGolOp db

def pC4 : Partida :=
  { id := 1, nome := none, pelada_id := 1, horario_inicio := some 5,
    horario_fim := some 9, horario_previsto := 0, nome_time_a := "Time A",
    nome_time_b := "Time B", gols_time_a := 2, gols_time_b := 3,
    observacoes := none, status := StatusPartida.FINALIZADA,
    data_criacao := 0, data_atualizacao := 3 }

def dbC4 : DB := { jogadores := [], peladas := [], partidas := [pC4], gols := [] }

def pC5 : Partida :=
  { id := 7, nome := some "Final", pelada_id := 2, horario_inicio := some 50,
    horario_fim := none, horario_previsto := 40, nome_time_a := "Time A",
    nome_time_b := "Time B", gols_time_a := 1, gols_time_b := 0,
    observacoes := none, status := StatusPartida.EM_ANDAMENTO,
    data_criacao := 0, data_atualizacao := 0 }

def dbC5 : DB := { jogadores := [], peladas := [], partidas := [pC5], gols := [] }

def pC5x : Partida :=
  { id := 7, nome := none, pelada_id := 2, horario_inicio := none,
    horario_fim := none, horario_previsto := 40, nome_time_a := "Time A",
    nome_time_b := "Time B", gols_time_a := 0, gols_time_b := 0,
    observacoes := none, status := StatusPartida.AGENDADA,
    data_criacao := 0, data_atualizacao := 0 }

def dbC5x : DB := { jogadores := [], peladas := [], partidas := [pC5x], gols := [] }

def dbC10 : DB :=
  { jogadores :=
      [{ id := 1, nome := "Ana", email := "ana@ex.com", telefone := none,
         posicao_preferida := none, nivel_habilidade := 5, ativo := true, data_cadastro := 0 },
       { id := 2, nome := "Bia", email := "bia@ex.com", telefone := none,
         posicao_preferida := none, nivel_habilidade := 7, ativo := false, data_cadastro := 0 }]
    peladas := []
    partidas := []
    gols := [] }

def jC7 : Jogador :=
  { id := 3, nome := "Ana", email := "ana@ex.com", telefone := none,
    posicao_preferida := some "Goleiro", nivel_habilidade := 6, ativo := true, data_cadastro := 0 }

def dbC7 : DB := { jogadores := [jC7], peladas := [], partidas := [], gols := [] }

def dbC6 : DB :=
  { jogadores :=
      [{ id := 1, nome := "Ana", email := "ana@ex.com", telefone := none,
         posicao_preferida := none, nivel_habilidade := 5, ativo := true, data_cadastro := 0 }]
    peladas := []
    partidas := []
    gols := [] }

def bodyC6 : JogadorCreate :=
  { nome := "Caio", email := "caio@ex.com", telefone := none,
    posicao_preferida := none, nivel_habilidade := 8 }

def plC8 : Pelada :=
  { id := 1, nome := "Sábado", descricao := none, data_evento := 0,
    local_pelada := "Parque", max_jogadores := 22, valor_por_jogador := 0,
    status := StatusPelada.PLANEJADA, data_criacao := 0, data_atualizacao := 0 }

def dbC8 : DB :=
  { jogadores := []
    peladas := [plC8]
    partidas := [{ id := 1, nome := none, pelada_id := 1, horario_inicio := none,
                   horario_fim := none, horario_previsto := 0, nome_time_a := "Time A",
                   nome_time_b := "Time B", gols_time_a := 1, gols_time_b := 0,
                   observacoes := none, status := StatusPartida.AGENDADA,
                   data_criacao := 0, data_atualizacao := 0 }]
    gols := [{ id := 1, partida_id := 1, jogador_id := 1, minuto := 10, time := "A",
               descricao := none, data_criacao := 0 }] }

def pC2 : Partida :=
  { id := 4, nome := none, pelada_id := 1, horario_inicio := some 100,
    horario_fim := none, horario_previsto := 90, nome_time_a := "Time A",
    nome_time_b := "Time B", gols_time_a := 0, gols_time_b := 0,
    observacoes := none, status := StatusPartida.EM_ANDAMENTO,
    data_criacao := 0, data_atualizacao := 0 }

def jC2 : Jogador :=
  { id := 9, nome := "Du", email := "du@ex.com", telefone := none,
    posicao_preferida := none, nivel_habilidade := 5, ativo := true, data_cadastro := 0 }

def dbC2 : DB := { jogadores := [jC2], peladas := [], partidas := [pC2], gols := [] }

def gC9 : Gol :=
  { id := 2, partida_id := 6, jogador_id := 1, minuto := 12, time := "A",
    descricao := none, data_criacao := 0 }

def pC9 : Partida :=
  { id := 6, nome := none, pelada_id := 1, horario_inicio := none,
    horario_fim := none, horario_previsto := 0, nome_time_a := "Time A",
    nome_time_b := "Time B", gols_time_a := 1, gols_time_b := 0,
    observacoes := none, status := StatusPartida.EM_ANDAMENTO,
    data_criacao := 0, data_atualizacao := 0 }

def dbC9 : DB := { jogadores := [], peladas := [], partidas := [pC9], gols := [gC9] }

/-- A write handler (request already applied) isolates persistence
failures: a failed commit leaves the store unchanged, no exception ever
escapes, and whenever the handler would actually write (its successful
run changes the store), the failure surfaces as HTTP 400 carrying the
underlying message behind the handler's prefix. -/
def isolatesFailure {α : Type} (h : Option String → DB → DB × HandlerResult α)
    (pre : String) : Prop :=
  ∀ (db : DB) (msg : String),
    (h (some msg) db).1 = db ∧
    (∀ (c : Option String) (m : String), (h c db).2 ≠ .unhandled m) ∧
    ((h none db).1 ≠ db → (h (some msg) db).2 = .clientError 400 (pre ++ msg))

/-- A write handler with no local try/except: a failed commit still
leaves the store unchanged (the session is discarded), but whenever the
handler would actually write, the exception escapes unhandled. -/
def escapesFailure {α : Type} (h : Option String → DB → DB × HandlerResult α) : Prop :=
  ∀ (db : DB) (msg : String),
    (h (some msg) db).1 = db ∧
    ((h none db).1 ≠ db → (h (some msg) db).2 = .unhandled msg)

def jcC3 : JogadorCreate :=
  { nome := "Zeca", email := "zeca@ex.com", telefone := none,
    posicao_preferida := none, nivel_habilidade := 5 }

def dbC3 : DB := { jogadores := [], peladas := [], partidas := [], gols := [] }

def gcC3 : GolCreate :=
  { minuto := 10, time := "A", descricao := none, partida_id := 1, jogador_id := 1 }

def dbC3g : DB :=
  { jogadores :=
      [{ id := 1, nome := "Ana", email := "ana@ex.com", telefone := none,
         posicao_preferida := none, nivel_habilidade := 5, ativo := true, data_cadastro := 0 }]
    peladas := []
    partidas := [{ id := 1, nome := none, pelada_id := 1, horario_inicio := none,
                   horario_fim := none, horario_previsto := 0, nome_time_a := "Time A",
                   nome_time_b := "Time B", gols_time_a := 0, gols_time_b := 0,
                   observacoes := none, status := StatusPartida.AGENDADA,
                   data_criacao := 0, data_atualizacao := 0 }]
    gols := [] }

def jC1 : Jogador :=
  { id := 1, nome := "Ana", email := "ana@ex.com", telefone := none,
    posicao_preferida := none, nivel_habilidade := 5, ativo := true, data_cadastro := 0 }

def plC1 : Pelada :=
  { id := 1, nome := "Sábado", descricao := none, data_evento := 0,
    local_pelada := "Parque", max_jogadores := 22, valor_por_jogador := 0,
    status := StatusPelada.PLANEJADA, data_criacao := 0, data_atualizacao := 0 }

def pC1 : Partida :=
  { id := 1, nome := none, pelada_id := 1, horario_inicio := none,
    horario_fim := none, horario_previsto := 0, nome_time_a := "Time A",
    nome_time_b := "Time B", gols_time_a := 0, gols_time_b := 0,
    observacoes := none, status := StatusPartida.AGENDADA,
    data_criacao := 0, data_atualizacao := 0 }

def dbC1 : DB := { jogadores := [jC1], peladas := [plC1], partidas := [pC1], gols := [] }

def opsC1 : List GolOp :=
  [GolOp.create { minuto := 10, time := "A", descricao := none,
                  partida_id := 1, jogador_id := 1 } 60 none,
   GolOp.update 1 { minuto := none, time := some "C", descricao := none } 120 none]

theorem le_foldr_max (l : List Nat) : ∀ x ∈ l, x ≤ l.foldr max 0 := by
  induction l with
  | nil => simp
  | cons a l ih =>
    intro x hx
    rcases List.mem_cons.mp hx with rfl | h
    · exact le_max_left _ _
    · exact le_trans (ih x h) (le_max_right _ _)

theorem mem_nextId_ne (l : List Nat) : ∀ x ∈ l, x ≠ nextId l := by
  intro x hx
  have := le_foldr_max l x hx
  unfold nextId
  omega

theorem updateById_cons {α : Type} (f : α → Nat) (i : Nat) (x b : α) (l : List α) :
    updateById f i x (b :: l) =
      (if f b == i then x else b) :: updateById f i x l := rfl

theorem removeById_cons {α : Type} (f : α → Nat) (i : Nat) (b : α) (l : List α) :
    removeById f i (b :: l) =
      if f b != i then b :: removeById f i l else removeById f i l := by
  show List.filter _ (b :: l) = _
  rw [List.filter_cons]
  rfl

theorem mem_updateById {α : Type} (f : α → Nat) (i : Nat) (x : α) (l : List α) :
    ∀ y ∈ updateById f i x l, y = x ∨ (y ∈ l ∧ f y ≠ i) := by
  intro y hy
  rcases List.mem_map.mp hy with ⟨z, hz, hzy⟩
  by_cases h : f z = i
  · left
    simp [h] at hzy
    exact hzy.symm
  · right
    have hz' : z = y := by simpa [h] using hzy
    exact hz' ▸ ⟨hz, h⟩

theorem updateById_eq_of_forall_ne {α : Type} (f : α → Nat) (i : Nat) (x : α)
    (l : List α) (h : ∀ z ∈ l, f z ≠ i) : updateById f i x l = l := by
  induction l with
  | nil => rfl
  | cons b l ih =>
    have hb : f b ≠ i := h b (List.mem_cons_self _ _)
    rw [updateById_cons, if_neg (by simpa using hb),
      ih (fun z hz => h z (List.mem_cons_of_mem _ hz))]

theorem removeById_eq_of_forall_ne {α : Type} (f : α → Nat) (i : Nat)
    (l : List α) (h : ∀ z ∈ l, f z ≠ i) : removeById f i l = l := by
  unfold removeById
  apply List.filter_eq_self.mpr
  intro z hz
  simpa using h z hz

theorem find?_updateById {α : Type} (f : α → Nat) (i : Nat) (x : α) (l : List α)
    {a : α} (ha : l.find? (fun y => f y == i) = some a) (hx : f x = i) :
    (updateById f i x l).find? (fun y => f y == i) = some x := by
  induction l with
  | nil => simp at ha
  | cons b l ih =>
    rw [updateById_cons]
    by_cases h : f b = i
    · rw [if_pos (by simpa using h)]
      apply List.find?_cons_of_pos
      simpa using hx
    · rw [List.find?_cons_of_neg _ (by simpa using h)] at ha
      rw [if_neg (by simpa using h)]
      have hb2 : ((f b == i : Bool)) = false := by simpa using h
      simp only [List.find?_cons, hb2]
      exact ih ha

theorem map_updateById {α : Type} (f : α → Nat) (i : Nat) (x : α) (l : List α)
    (hx : f x = i) : (updateById f i x l).map f = l.map f := by
  unfold updateById
  rw [List.map_map]
  apply List.map_congr_left
  intro y _
  by_cases h : f y = i
  · simp [Function.comp, h, hx]
  · simp [Function.comp, h]

theorem countP_updateById {α : Type} (f : α → Nat) (i : Nat) (x : α) (l : List α)
    (q : α → Bool) {a : α} (hnd : (l.map f).Nodup)
    (ha : l.find? (fun y => f y == i) = some a) (_hx : f x = i) :
    (updateById f i x l).countP q + (if q a then 1 else 0) =
      l.countP q + (if q x then 1 else 0) := by
  induction l with
  | nil => simp at ha
  | cons b l ih =>
    rw [List.map_cons, List.nodup_cons] at hnd
    rw [updateById_cons]
    by_cases h : f b = i
    · rw [List.find?_cons_of_pos _ (by simpa using h)] at ha
      have hab : b = a := by simpa using ha
      have htail : ∀ z ∈ l, f z ≠ i := by
        intro z hz hzi
        apply hnd.1
        rw [h, ← hzi]
        exact List.mem_map_of_mem f hz
      rw [if_pos (by simpa using h), updateById_eq_of_forall_ne f i x l htail,
        List.countP_cons, List.countP_cons, ← hab]
      omega
    · rw [List.find?_cons_of_neg _ (by simpa using h)] at ha
      rw [if_neg (by simpa using h), List.countP_cons, List.countP_cons]
      have := ih hnd.2 ha
      omega

theorem countP_removeById {α : Type} (f : α → Nat) (i : Nat) (l : List α)
    (q : α → Bool) {a : α} (hnd : (l.map f).Nodup)
    (ha : l.find? (fun y => f y == i) = some a) :
    (removeById f i l).countP q + (if q a then 1 else 0) = l.countP q := by
  induction l with
  | nil => simp at ha
  | cons b l ih =>
    rw [List.map_cons, List.nodup_cons] at hnd
    rw [removeById_cons]
    by_cases h : f b = i
    · rw [List.find?_cons_of_pos _ (by simpa using h)] at ha
      have hab : b = a := by simpa using ha
      have htail : ∀ z ∈ l, f z ≠ i := by
        intro z hz hzi
        apply hnd.1
        rw [h, ← hzi]
        exact List.mem_map_of_mem f hz
      rw [if_neg (by simp [h]), removeById_eq_of_forall_ne f i l htail,
        List.countP_cons, ← hab]
    · rw [List.find?_cons_of_neg _ (by simpa using h)] at ha
      rw [if_pos (by simpa using h), List.countP_cons, List.countP_cons]
      have := ih hnd.2 ha
      omega

/-! ## The denormalized score counters (claim C1) -/

theorem criar_gol_inv (gol : GolCreate) (now : Int) (c : Option String) (db : DB)
    (hw : wfGolIds db) (hs : scoreInvariant db) :
    wfGolIds (criar_gol gol now c db).1 ∧ scoreInvariant (criar_gol gol now c db).1 := by
  unfold criar_gol
  cases hp : db.partidas.find? (fun p => p.id == gol.partida_id) with
  | none => exact ⟨hw, hs⟩
  | some partida =>
  cases hj : db.jogadores.find? (fun j => j.id == gol.jogador_id) with
  | none => exact ⟨hw, hs⟩
  | some jogador =>
  dsimp only
  by_cases htv : (gol.time != "A" && gol.time != "B") = true
  · rw [if_pos htv]
    exact ⟨hw, hs⟩
  · rw [if_neg htv]
    cases c with
    | some msg => exact ⟨hw, hs⟩
    | none =>
    have hpid : partida.id = gol.partida_id := by
      simpa using List.find?_some hp
    have hpm : partida ∈ db.partidas := List.mem_of_find?_eq_some hp
    have ht : gol.time = "A" ∨ gol.time = "B" := by
      rcases Bool.and_eq_false_iff.mp (Bool.of_not_eq_true htv) with h | h
      · left; simpa using h
      · right; simpa using h
    constructor
    · show ((db.gols ++ [_]).map Gol.id).Nodup
      rw [List.map_append]
      rw [List.nodup_append]
      refine ⟨hw, List.nodup_singleton _, ?_⟩
      intro x hx1 hx2
      have hx2' : x = nextId (db.gols.map Gol.id) := by simpa using hx2
      exact mem_nextId_ne (db.gols.map Gol.id) x hx1 hx2'
    · intro q hq
      rcases mem_updateById Partida.id gol.partida_id _ db.partidas q hq with rfl | ⟨hqm, hqne⟩
      · -- the updated parent match
        have hinv := hs partida hpm
        rcases ht with hA | hB
        · rw [if_pos (show (gol.time == "A") = true by simp [hA])] at hq ⊢
          constructor
          · show partida.gols_time_a + 1 = (golsCountA (db.gols ++ [_]) partida.id : Int)
            rw [golsCountA, List.countP_append, ← golsCountA]
            have : List.countP (fun (g : Gol) => g.partida_id == partida.id && g.time == "A")
                [{ id := nextId (db.gols.map Gol.id), partida_id := gol.partida_id,
                   jogador_id := gol.jogador_id, minuto := gol.minuto, time := gol.time,
                   descricao := gol.descricao, data_criacao := now }] = 1 := by
              simp [List.countP_cons, hpid, hA]
            rw [this]
            push_cast
            omega
          · show partida.gols_time_b = (golsCountNotA (db.gols ++ [_]) partida.id : Int)
            rw [golsCountNotA, List.countP_append, ← golsCountNotA]
            have : List.countP (fun (g : Gol) => g.partida_id == partida.id && g.time != "A")
                [{ id := nextId (db.gols.map Gol.id), partida_id := gol.partida_id,
                   jogador_id := gol.jogador_id, minuto := gol.minuto, time := gol.time,
                   descricao := gol.descricao, data_criacao := now }] = 0 := by
              simp [List.countP_cons, hpid, hA]
            rw [this]
            push_cast
            omega
        · rw [if_neg (show ¬((gol.time == "A") = true) by simp [hB])] at hq ⊢
          constructor
          · show partida.gols_time_a = (golsCountA (db.gols ++ [_]) partida.id : Int)
            rw [golsCountA, List.countP_append, ← golsCountA]
            have : List.countP (fun (g : Gol) => g.partida_id == partida.id && g.time == "A")
                [{ id := nextId (db.gols.map Gol.id), partida_id := gol.partida_id,
                   jogador_id := gol.jogador_id, minuto := gol.minuto, time := gol.time,
                   descricao := gol.descricao, data_criacao := now }] = 0 := by
              simp [List.countP_cons, hpid, hB]
            rw [this]
            push_cast
            omega
          · show partida.gols_time_b + 1 = (golsCountNotA (db.gols ++ [_]) partida.id : Int)
            rw [golsCountNotA, List.countP_append, ← golsCountNotA]
            have : List.countP (fun (g : Gol) => g.partida_id == partida.id && g.time != "A")
                [{ id := nextId (db.gols.map Gol.id), partida_id := gol.partida_id,
                   jogador_id := gol.jogador_id, minuto := gol.minuto, time := gol.time,
                   descricao := gol.descricao, data_criacao := now }] = 1 := by
              simp [List.countP_cons, hpid, hB]
            rw [this]
            push_cast
            omega
      · -- an untouched match
        have hinv := hs q hqm
        have hzero : List.countP (fun (g : Gol) => g.partida_id == q.id && g.time == "A")
            [{ id := nextId (db.gols.map Gol.id), partida_id := gol.partida_id,
               jogador_id := gol.jogador_id, minuto := gol.minuto, time := gol.time,
               descricao := gol.descricao, data_criacao := now }] = 0 := by
          simp [List.countP_cons]
          intro hzz
          exact absurd hzz.symm hqne
        have hzero2 : List.countP (fun (g : Gol) => g.partida_id == q.id && g.time != "A")
            [{ id := nextId (db.gols.map Gol.id), partida_id := gol.partida_id,
               jogador_id := gol.jogador_id, minuto := gol.minuto, time := gol.time,
               descricao := gol.descricao, data_criacao := now }] = 0 := by
          simp [List.countP_cons]
          intro hzz
          exact absurd hzz.symm hqne
        constructor
        · rw [golsCountA, List.countP_append, ← golsCountA, hzero]
          simpa using hinv.1
        · rw [golsCountNotA, List.countP_append, ← golsCountNotA, hzero2]
          simpa using hinv.2

theorem wfGolIds_update_gol (db : DB) (gol_id : Nat) {gol : Gol} (gol2 : Gol)
    (partidas2 : List Partida)
    (hg : db.gols.find? (fun g => g.id == gol_id) = some gol) (hid2 : gol2.id = gol.id)
    (hw : wfGolIds db) :
    wfGolIds { db with gols := updateById Gol.id gol_id gol2 db.gols,
                       partidas := partidas2 } := by
  show ((updateById Gol.id gol_id gol2 db.gols).map Gol.id).Nodup
  rw [map_updateById Gol.id gol_id gol2 db.gols
    (by rw [hid2]; simpa using List.find?_some hg)]
  exact hw

theorem wfGolIds_remove_gol (db : DB) (gol_id : Nat) (partidas2 : List Partida)
    (hw : wfGolIds db) :
    wfGolIds { db with gols := removeById Gol.id gol_id db.gols,
                       partidas := partidas2 } := by
  show ((removeById Gol.id gol_id db.gols).map Gol.id).Nodup
  exact ((List.filter_sublist db.gols).map Gol.id).nodup hw

/-- A goal update that does not change the goal's side or parent match
leaves every match's counters consistent. -/
theorem scoreInvariant_update_gol_same (db : DB) (gol_id : Nat) {gol : Gol} (gol2 : Gol)
    (hg : db.gols.find? (fun g => g.id == gol_id) = some gol)
    (hw : wfGolIds db) (hs : scoreInvariant db)
    (hpid2 : gol2.partida_id = gol.partida_id) (htime : gol2.time = gol.time)
    (hid2 : gol2.id = gol.id) :
    scoreInvariant { db with gols := updateById Gol.id gol_id gol2 db.gols } := by
  intro q hq
  dsimp only at hq ⊢
  have hinv := hs q hq
  have hxid : Gol.id gol2 = gol_id := by rw [hid2]; simpa using List.find?_some hg
  have h1 := countP_updateById Gol.id gol_id gol2 db.gols
    (fun g => g.partida_id == q.id && g.time == "A") hw hg hxid
  have h2 := countP_updateById Gol.id gol_id gol2 db.gols
    (fun g => g.partida_id == q.id && g.time != "A") hw hg hxid
  simp only [hpid2, htime] at h1 h2
  constructor
  · simp only [golsCountA, golsCountNotA] at hinv ⊢
    omega
  · simp only [golsCountA, golsCountNotA] at hinv ⊢
    omega

/-- A goal update that moves the goal to side `t` adjusts the parent
match's counters consistently: one off the old side's counter (`a` for
old side `A`, `b` otherwise), one onto `a` if `t = A` and onto `b`
otherwise. -/
theorem scoreInvariant_update_gol_moved (db : DB) (gol_id : Nat) {gol : Gol} (gol2 : Gol)
    {partida : Partida} (partida2 : Partida)
    (hg : db.gols.find? (fun g => g.id == gol_id) = some gol)
    (hp : db.partidas.find? (fun p => p.id == gol.partida_id) = some partida)
    (hw : wfGolIds db) (hs : scoreInvariant db)
    (hpid2 : gol2.partida_id = gol.partida_id) (hid2 : gol2.id = gol.id)
    (hid : partida2.id = partida.id)
    (hA2 : partida2.gols_time_a = partida.gols_time_a
      - (if (gol.time == "A") = true then 1 else 0)
      + (if (gol2.time == "A") = true then 1 else 0))
    (hB2 : partida2.gols_time_b = partida.gols_time_b
      - (if (gol.time == "A") = true then 0 else 1)
      + (if (gol2.time == "A") = true then 0 else 1)) :
    scoreInvariant { db with gols := updateById Gol.id gol_id gol2 db.gols,
                             partidas := updateById Partida.id gol.partida_id partida2 db.partidas } := by
  have hppid : partida.id = gol.partida_id := by simpa using List.find?_some hp
  have hxid : Gol.id gol2 = gol_id := by rw [hid2]; simpa using List.find?_some hg
  intro q hq
  dsimp only at hq ⊢
  rcases mem_updateById Partida.id gol.partida_id partida2 db.partidas q hq with rfl | ⟨hqm, hqne⟩
  · -- the parent match, with both counters adjusted
    have hinv := hs partida (List.mem_of_find?_eq_some hp)
    have h1 := countP_updateById Gol.id gol_id gol2 db.gols
      (fun g => g.partida_id == partida.id && g.time == "A") hw hg hxid
    have h2 := countP_updateById Gol.id gol_id gol2 db.gols
      (fun g => g.partida_id == partida.id && g.time != "A") hw hg hxid
    have hbeq : (gol.partida_id == partida.id) = true := by simp [hppid]
    have hbeq2 : (gol2.partida_id == partida.id) = true := by simp [hpid2, hppid]
    simp only [hbeq, hbeq2, Bool.true_and] at h1 h2
    simp only [golsCountA, golsCountNotA] at hinv ⊢
    rw [hid, hA2, hB2]
    constructor
    · by_cases hOld : gol.time = "A" <;> by_cases hNew : gol2.time = "A" <;>
        simp [hOld, hNew] at h1 ⊢ <;> omega
    · by_cases hOld : gol.time = "A" <;> by_cases hNew : gol2.time = "A" <;>
        simp [hOld, hNew] at h2 ⊢ <;> omega
  · -- an untouched match
    have hinv := hs q hqm
    have h1 := countP_updateById Gol.id gol_id gol2 db.gols
      (fun g => g.partida_id == q.id && g.time == "A") hw hg hxid
    have h2 := countP_updateById Gol.id gol_id gol2 db.gols
      (fun g => g.partida_id == q.id && g.time != "A") hw hg hxid
    have hb1 : (gol.partida_id == q.id) = false := by
      simp only [beq_eq_false_iff_ne, ne_eq]
      exact fun hzz => hqne hzz.symm
    have hb2 : (gol2.partida_id == q.id) = false := by
      rw [hpid2]
      exact hb1
    simp only [hb1, hb2, Bool.false_and, Bool.false_eq_true, if_false] at h1 h2
    simp only [golsCountA, golsCountNotA] at hinv ⊢
    constructor
    · omega
    · omega

/-- Deleting a goal adjusts the parent match's counters consistently:
one off `a` if the goal's side was `A`, one off `b` otherwise. -/
theorem scoreInvariant_delete_gol (db : DB) (gol_id : Nat) {gol : Gol}
    {partida : Partida} (partida2 : Partida)
    (hg : db.gols.find? (fun g => g.id == gol_id) = some gol)
    (hp : db.partidas.find? (fun p => p.id == gol.partida_id) = some partida)
    (hw : wfGolIds db) (hs : scoreInvariant db)
    (hid : partida2.id = partida.id)
    (hA2 : partida2.gols_time_a = partida.gols_time_a
      - (if (gol.time == "A") = true then 1 else 0))
    (hB2 : partida2.gols_time_b = partida.gols_time_b
      - (if (gol.time == "A") = true then 0 else 1)) :
    scoreInvariant { db with gols := removeById Gol.id gol_id db.gols,
                             partidas := updateById Partida.id gol.partida_id partida2 db.partidas } := by
  have hppid : partida.id = gol.partida_id := by simpa using List.find?_some hp
  intro q hq
  dsimp only at hq ⊢
  rcases mem_updateById Partida.id gol.partida_id partida2 db.partidas q hq with rfl | ⟨hqm, hqne⟩
  · have hinv := hs partida (List.mem_of_find?_eq_some hp)
    have h1 := countP_removeById Gol.id gol_id db.gols
      (fun g => g.partida_id == partida.id && g.time == "A") hw hg
    have h2 := countP_removeById Gol.id gol_id db.gols
      (fun g => g.partida_id == partida.id && g.time != "A") hw hg
    have hbeq : (gol.partida_id == partida.id) = true := by simp [hppid]
    simp only [hbeq, Bool.true_and] at h1 h2
    simp only [golsCountA, golsCountNotA] at hinv ⊢
    rw [hid, hA2, hB2]
    constructor
    · by_cases hOld : gol.time = "A" <;> simp [hOld] at h1 ⊢ <;> omega
    · by_cases hOld : gol.time = "A" <;> simp [hOld] at h2 ⊢ <;> omega
  · have hinv := hs q hqm
    have h1 := countP_removeById Gol.id gol_id db.gols
      (fun g => g.partida_id == q.id && g.time == "A") hw hg
    have h2 := countP_removeById Gol.id gol_id db.gols
      (fun g => g.partida_id == q.id && g.time != "A") hw hg
    have hb1 : (gol.partida_id == q.id) = false := by
      simp only [beq_eq_false_iff_ne, ne_eq]
      exact fun hzz => hqne hzz.symm
    simp only [hb1, Bool.false_and, Bool.false_eq_true, if_false] at h1 h2
    simp only [golsCountA, golsCountNotA] at hinv ⊢
    constructor
    · omega
    · omega

theorem atualizar_gol_inv (gol_id : Nat) (u : GolUpdate) (now : Int)
    (c : Option String) (db : DB) (hw : wfGolIds db) (hs : scoreInvariant db) :
    wfGolIds (atualizar_gol gol_id u now c db).1 ∧
      scoreInvariant (atualizar_gol gol_id u now c db).1 := by
  unfold atualizar_gol
  cases hg : db.gols.find? (fun g => g.id == gol_id) with
  | none => exact ⟨hw, hs⟩
  | some gol =>
  dsimp only
  have hgid : gol.id = gol_id := by simpa using List.find?_some hg
  cases hu : u.time with
  | none =>
    cases c with
    | some msg => exact ⟨hw, hs⟩
    | none =>
      dsimp only
      constructor
      · apply wfGolIds_update_gol db gol_id _ _ hg _ hw
        rfl
      · apply scoreInvariant_update_gol_same db gol_id _ hg hw hs
        · rfl
        · rfl
        · rfl
  | some t =>
  dsimp only
  by_cases htc : (t != gol.time) = true
  · rw [if_pos htc]
    cases hp : db.partidas.find? (fun p => p.id == gol.partida_id) with
    | none => exact ⟨hw, hs⟩
    | some partida =>
    dsimp only
    cases c with
    | some msg => exact ⟨hw, hs⟩
    | none =>
    dsimp only
    constructor
    · apply wfGolIds_update_gol db gol_id _ _ hg _ hw
      rfl
    · apply scoreInvariant_update_gol_moved db gol_id _ _ hg hp hw hs
      · rfl
      · rfl
      · by_cases h1 : gol.time = "A" <;> by_cases h2 : t = "A" <;>
          simp [touchPartida, h1, h2]
      · by_cases h1 : gol.time = "A" <;> by_cases h2 : t = "A" <;>
          simp [touchPartida, h1, h2]
      · by_cases h1 : gol.time = "A" <;> by_cases h2 : t = "A" <;>
          simp [touchPartida, h1, h2]
  · rw [if_neg htc]
    cases c with
    | some msg => exact ⟨hw, hs⟩
    | none =>
      dsimp only
      have hteq : t = gol.time := by simpa using htc
      constructor
      · apply wfGolIds_update_gol db gol_id _ _ hg _ hw
        rfl
      · apply scoreInvariant_update_gol_same db gol_id _ hg hw hs
        · rfl
        · simpa using hteq
        · rfl

theorem deletar_gol_inv (gol_id : Nat) (now : Int) (c : Option String) (db : DB)
    (hw : wfGolIds db) (hs : scoreInvariant db) :
    wfGolIds (deletar_gol gol_id now c db).1 ∧
      scoreInvariant (deletar_gol gol_id now c db).1 := by
  unfold deletar_gol
  cases hg : db.gols.find? (fun g => g.id == gol_id) with
  | none => exact ⟨hw, hs⟩
  | some gol =>
  dsimp only
  cases hp : db.partidas.find? (fun p => p.id == gol.partida_id) with
  | none => exact ⟨hw, hs⟩
  | some partida =>
  dsimp only
  cases c with
  | some msg => exact ⟨hw, hs⟩
  | none =>
  dsimp only
  constructor
  · apply wfGolIds_remove_gol db gol_id _ hw
  · apply scoreInvariant_delete_gol db gol_id _ hg hp hw hs
    · by_cases h1 : gol.time = "A" <;> simp [touchPartida, h1]
    · by_cases h1 : gol.time = "A" <;> simp [touchPartida, h1]
    · by_cases h1 : gol.time = "A" <;> simp [touchPartida, h1]

/-- Every goal-endpoint request preserves primary-key uniqueness and the
counter invariant the code maintains. -/
theorem applyGolOp_inv (db : DB) (op : GolOp)
    (h : wfGolIds db ∧ scoreInvariant db) :
    wfGolIds (applyGolOp db op) ∧ scoreInvariant (applyGolOp db op) := by
  cases op with
  | create gol now c => exact criar_gol_inv gol now c db h.1 h.2
  | update gol_id u now c => exact atualizar_gol_inv gol_id u now c db h.1 h.2
  | delete gol_id now c => exact deletar_gol_inv gol_id now c db h.1 h.2

theorem applyGolOps_inv (db : DB) (ops : List GolOp)
    (h : wfGolIds db ∧ scoreInvariant db) :
    wfGolIds (applyGolOps db ops) ∧ scoreInvariant (applyGolOps db ops) := by
  induction ops generalizing db with
  | nil => exact h
  | cons op ops ih => exact ih (applyGolOp db op) (applyGolOp_inv db op h)

/-! ## Claim theorems -/

theorem max_one_tdiv_eq_max_one_ediv (d : Int) : max 1 (d.tdiv 60) = max 1 (d / 60) := by
  rcases le_or_lt 0 d with h | h
  · rw [Int.tdiv_eq_ediv h (by norm_num)]
  · have h2 : 0 ≤ (-d).tdiv 60 := Int.tdiv_nonneg (by omega) (by norm_num)
    rw [Int.neg_tdiv] at h2
    have h3 : d / 60 ≤ 0 := by omega
    omega

/-- C4: for every existing match, in any prior state, the clock-control
`reset` action stores the match with both the start and end timestamps
cleared and the status reverted to scheduled (and touches nothing else). -/
theorem C4_reset_clears_clock (db : DB) (pid : Nat) (now : Int) (partida : Partida)
    (hp : db.partidas.find? (fun p => p.id == pid) = some partida) :
    (atualizar_cronometro pid "reset" now none db).1.partidas =
      updateById Partida.id pid
        (touchPartida now partida
          { partida with horario_inicio := none, horario_fim := none,
                         status := StatusPartida.AGENDADA }) db.partidas ∧
    (atualizar_cronometro pid "reset" now none db).2 =
      .ok 200 (touchPartida now partida
        { partida with horario_inicio := none, horario_fim := none,
                       status := StatusPartida.AGENDADA }) ∧
    ∀ q ∈ (atualizar_cronometro pid "reset" now none db).1.partidas,
      q.id = pid →
        q.horario_inicio = none ∧ q.horario_fim = none ∧
        q.status = StatusPartida.AGENDADA := by
  unfold atualizar_cronometro
  rw [hp]
  refine ⟨rfl, rfl, ?_⟩
  intro q hq hqid
  dsimp only at hq
  rcases mem_updateById Partida.id pid _ db.partidas q hq with rfl | ⟨_, hqne⟩
  · exact ⟨rfl, rfl, rfl⟩
  · exact absurd hqid hqne

theorem C4_reset_clears_clock_witness :
    dbC4.partidas.find? (fun p => p.id == 1) = some pC4 ∧
    ∀ q ∈ (atualizar_cronometro 1 "reset" 100 none dbC4).1.partidas,
      q.id = 1 →
        q.horario_inicio = none ∧ q.horario_fim = none ∧
        q.status = StatusPartida.AGENDADA :=
  ⟨by decide,
   (C4_reset_clears_clock dbC4 1 100 pC4 (by decide)).2.2⟩

/-- C5 counterexample: pausing a scheduled (not in-progress) match does
not leave every non-status field unchanged: the UPDATE emitted for the
status change also refreshes the ORM audit column `data_atualizacao`
(`onupdate=datetime.utcnow`, `entities.py:151`). -/
theorem C5_counterexample :
    (atualizar_cronometro 7 "pause" 99 none dbC5x).1.partidas =
      [{ pC5x with status := StatusPartida.EM_ANDAMENTO, data_atualizacao := 99 }] ∧
    pC5x.data_atualizacao ≠ 99 := by decide

/-- C5 (amended): for every existing match, the clock-control `pause`
action stores the match with status in-progress; both timestamps, both
score counters and every other column are unchanged, except the
ORM-maintained audit column `data_atualizacao`, which is refreshed to the
request time exactly when the status actually changed (when the match was
already in-progress no UPDATE is emitted and nothing changes); no other
table is touched. -/
theorem C5_pause_amended (db : DB) (pid : Nat) (now : Int) (partida : Partida)
    (hp : db.partidas.find? (fun p => p.id == pid) = some partida) :
    (atualizar_cronometro pid "pause" now none db).2 =
      .ok 200 (touchPartida now partida
        { partida with status := StatusPartida.EM_ANDAMENTO }) ∧
    (atualizar_cronometro pid "pause" now none db).1.partidas =
      updateById Partida.id pid
        (touchPartida now partida { partida with status := StatusPartida.EM_ANDAMENTO })
        db.partidas ∧
    (atualizar_cronometro pid "pause" now none db).1.jogadores = db.jogadores ∧
    (atualizar_cronometro pid "pause" now none db).1.peladas = db.peladas ∧
    (atualizar_cronometro pid "pause" now none db).1.gols = db.gols ∧
    ∀ q ∈ (atualizar_cronometro pid "pause" now none db).1.partidas,
      q.id = pid →
        q.status = StatusPartida.EM_ANDAMENTO ∧
        q.id = partida.id ∧ q.nome = partida.nome ∧ q.pelada_id = partida.pelada_id ∧
        q.horario_inicio = partida.horario_inicio ∧
        q.horario_fim = partida.horario_fim ∧
        q.horario_previsto = partida.horario_previsto ∧
        q.nome_time_a = partida.nome_time_a ∧ q.nome_time_b = partida.nome_time_b ∧
        q.gols_time_a = partida.gols_time_a ∧ q.gols_time_b = partida.gols_time_b ∧
        q.observacoes = partida.observacoes ∧
        q.data_criacao = partida.data_criacao ∧
        q.data_atualizacao =
          (if partida.status = StatusPartida.EM_ANDAMENTO
           then partida.data_atualizacao else now) := by
  unfold atualizar_cronometro
  rw [hp]
  refine ⟨rfl, rfl, rfl, rfl, rfl, ?_⟩
  intro q hq hqid
  dsimp only at hq
  rcases mem_updateById Partida.id pid _ db.partidas q hq with rfl | ⟨_, hqne⟩
  · refine ⟨rfl, rfl, rfl, rfl, rfl, rfl, rfl, rfl, rfl, rfl, rfl, rfl, rfl, ?_⟩
    show (if ({ partida with status := StatusPartida.EM_ANDAMENTO } : Partida) = partida
        then ({ partida with status := StatusPartida.EM_ANDAMENTO } : Partida).data_atualizacao
        else now) = _
    by_cases hst : partida.status = StatusPartida.EM_ANDAMENTO
    · have hXeq : ({ partida with status := StatusPartida.EM_ANDAMENTO } : Partida)
          = partida := by
        rw [← hst]
      rw [if_pos hXeq, if_pos hst, hXeq]
    · have hXne : ({ partida with status := StatusPartida.EM_ANDAMENTO } : Partida)
          ≠ partida := by
        intro h
        exact hst (congrArg Partida.status h).symm
      rw [if_neg hXne, if_neg hst]
  · exact absurd hqid hqne

theorem C5_pause_amended_witness :
    dbC5.partidas.find? (fun p => p.id == 7) = some pC5 ∧
    (atualizar_cronometro 7 "pause" 99 none dbC5).1.gols = dbC5.gols :=
  ⟨by decide,
   (C5_pause_amended dbC5 7 99 pC5 (by decide)).2.2.2.2.1⟩

/-- C10: in the player listing, an `ativo` filter of `false` disables the
active-only filter entirely (the listing draws from all stored players,
active and inactive alike, so every stored player appears under a large
enough page), while the default `true` restricts the listing to active
players. -/
theorem C10_inactive_filter_disables :
    (∀ (db : DB) (skip limit : Nat),
      listar_jogadores skip limit false db = (db.jogadores.drop skip).take limit) ∧
    (∀ (db : DB) (j : Jogador), j ∈ db.jogadores →
      j ∈ listar_jogadores 0 db.jogadores.length false db) ∧
    (∀ (db : DB) (skip limit : Nat) (j : Jogador),
      j ∈ listar_jogadores skip limit true db → j.ativo = true) := by
  refine ⟨fun db skip limit => rfl, ?_, ?_⟩
  · intro db j hj
    show j ∈ (db.jogadores.drop 0).take db.jogadores.length
    rw [List.drop_zero, List.take_length]
    exact hj
  · intro db skip limit j hj
    have h1 := List.take_subset _ _ hj
    have h2 := List.drop_subset _ _ h1
    exact (List.mem_filter.mp h2).2

theorem C10_inactive_filter_disables_witness :
    ({ id := 2, nome := "Bia", email := "bia@ex.com", telefone := none,
       posicao_preferida := none, nivel_habilidade := 7, ativo := false,
       data_cadastro := 0 } : Jogador) ∈ dbC10.jogadores ∧
    ({ id := 2, nome := "Bia", email := "bia@ex.com", telefone := none,
       posicao_preferida := none, nivel_habilidade := 7, ativo := false,
       data_cadastro := 0 } : Jogador) ∈ listar_jogadores 0 dbC10.jogadores.length false dbC10 :=
  ⟨by decide,
   C10_inactive_filter_disables.2.1 dbC10 _ (by decide)⟩

/-- C7: soft-deleting a stored player keeps the row (same table size),
leaves it retrievable by id with the active flag now false, and excludes
it from every page of the default active-only listing. -/
theorem C7_soft_delete (db : DB) (jid : Nat) (jogador : Jogador)
    (hj : db.jogadores.find? (fun j => j.id == jid) = some jogador) :
    (deletar_jogador jid none db).2 = .ok 200 "Jogador desativado com sucesso" ∧
    (deletar_jogador jid none db).1.jogadores.length = db.jogadores.length ∧
    obter_jogador jid (deletar_jogador jid none db).1 =
      .ok 200 { jogador with ativo := false } ∧
    ∀ skip limit : Nat,
      { jogador with ativo := false } ∉
        listar_jogadores skip limit true (deletar_jogador jid none db).1 := by
  have hjid : jogador.id = jid := by simpa using List.find?_some hj
  unfold deletar_jogador
  rw [hj]
  refine ⟨rfl, ?_, ?_, ?_⟩
  · show (updateById Jogador.id jid _ db.jogadores).length = _
    exact List.length_map _ _
  · show obter_jogador jid
      { db with jogadores := updateById Jogador.id jid _ db.jogadores } = _
    unfold obter_jogador
    dsimp only
    rw [find?_updateById Jogador.id jid ({ jogador with ativo := false }) db.jogadores hj hjid]
  · intro skip limit hmem
    have h1 := List.take_subset _ _ hmem
    have h2 := List.drop_subset _ _ h1
    have h3 := (List.mem_filter.mp h2).2
    simp at h3

theorem C7_soft_delete_witness :
    dbC7.jogadores.find? (fun j => j.id == 3) = some jC7 ∧
    obter_jogador 3 (deletar_jogador 3 none dbC7).1 = .ok 200 { jC7 with ativo := false } :=
  ⟨by decide,
   (C7_soft_delete dbC7 3 jC7 (by decide)).2.2.1⟩

theorem find?_append_fresh {α : Type} (f : α → Nat) (l : List α) (x : α) (i : Nat)
    (hx : f x = i) (hi : i = nextId (l.map f)) :
    (l ++ [x]).find? (fun y => f y == i) = some x := by
  rw [List.find?_append]
  have h1 : l.find? (fun y => f y == i) = none := by
    rw [List.find?_eq_none]
    intro y hy hc
    have hyi : f y = i := by simpa using hc
    exact mem_nextId_ne (l.map f) (f y) (List.mem_map_of_mem f hy) (hi ▸ hyi)
  rw [h1]
  have hx2 : ((f x == i) : Bool) = true := by simpa using hx
  simp [List.find?_cons, hx2]

/-- C6: creating a player whose email is already stored is rejected with
HTTP 400 and stores nothing, whatever the commit outcome; with a fresh
email (and a successful commit) it returns HTTP 201 and the new player is
retrievable by its id. -/
theorem C6_create_player_unique_email (db : DB) (body : JogadorCreate) (now : Int) :
    ((∃ j ∈ db.jogadores, j.email = body.email) →
      ∀ c, criar_jogador body now c db = (db, .clientError 400 "Email já cadastrado")) ∧
    ((∀ j ∈ db.jogadores, j.email ≠ body.email) →
      ∃ jnew, (criar_jogador body now none db).2 = .ok 201 jnew ∧
        (criar_jogador body now none db).1.jogadores = db.jogadores ++ [jnew] ∧
        obter_jogador jnew.id (criar_jogador body now none db).1 = .ok 200 jnew) := by
  constructor
  · rintro ⟨j, hjm, hje⟩ c
    unfold criar_jogador
    cases hf : db.jogadores.find? (fun x => x.email == body.email) with
    | none =>
      rw [List.find?_eq_none] at hf
      exact absurd (by simpa using hje) (hf j hjm)
    | some _ => rfl
  · intro hno
    have hf : db.jogadores.find? (fun x => x.email == body.email) = none :=
      List.find?_eq_none.mpr (fun x hx => by simpa using hno x hx)
    unfold criar_jogador
    rw [hf]
    dsimp only
    refine ⟨_, rfl, rfl, ?_⟩
    unfold obter_jogador
    dsimp only
    rw [find?_append_fresh Jogador.id db.jogadores
      { id := nextId (db.jogadores.map Jogador.id), nome := body.nome,
        email := body.email, telefone := body.telefone,
        posicao_preferida := body.posicao_preferida,
        nivel_habilidade := body.nivel_habilidade, ativo := true,
        data_cadastro := now }
      (nextId (db.jogadores.map Jogador.id)) rfl rfl]

theorem C6_create_player_unique_email_witness :
    (∀ j ∈ dbC6.jogadores, j.email ≠ bodyC6.email) ∧
    ∃ jnew, (criar_jogador bodyC6 50 none dbC6).2 = .ok 201 jnew ∧
      (criar_jogador bodyC6 50 none dbC6).1.jogadores = dbC6.jogadores ++ [jnew] ∧
      obter_jogador jnew.id (criar_jogador bodyC6 50 none dbC6).1 = .ok 200 jnew :=
  ⟨by decide, (C6_create_player_unique_email dbC6 bodyC6 50).2 (by decide)⟩

/-- C8: deleting an existing event returns 204 and removes the event,
every match belonging to it and every goal of those matches. -/
theorem C8_event_delete_cascade (db : DB) (pid : Nat) (pelada : Pelada)
    (hp : db.peladas.find? (fun pl => pl.id == pid) = some pelada) :
    (deletar_pelada pid none db).2 = .ok 204 () ∧
    (∀ pl ∈ (deletar_pelada pid none db).1.peladas, pl.id ≠ pid) ∧
    (∀ m ∈ (deletar_pelada pid none db).1.partidas, m.pelada_id ≠ pid) ∧
    (∀ g ∈ (deletar_pelada pid none db).1.gols, ∀ m ∈ db.partidas,
      m.pelada_id = pid → g.partida_id ≠ m.id) := by
  unfold deletar_pelada
  rw [hp]
  refine ⟨rfl, ?_, ?_, ?_⟩
  · intro pl hpl
    dsimp only at hpl
    have h2 := (List.mem_filter.mp hpl).2
    simpa using h2
  · intro m hm
    dsimp only at hm
    have h2 := (List.mem_filter.mp hm).2
    simpa using h2
  · intro g hg m hm hmp hgp
    dsimp only at hg
    have h2 := (List.mem_filter.mp hg).2
    simp only [Bool.not_eq_eq_eq_not, Bool.not_true, List.any_eq_false] at h2
    have hmem : m ∈ db.partidas.filter (fun p => p.pelada_id == pid) :=
      List.mem_filter.mpr ⟨hm, by simpa using hmp⟩
    have h3 := h2 m hmem
    exact h3 (by simpa using hgp.symm)

theorem C8_event_delete_cascade_witness :
    dbC8.peladas.find? (fun pl => pl.id == 1) = some plC8 ∧
    ∀ m ∈ (deletar_pelada 1 none dbC8).1.partidas, m.pelada_id ≠ 1 :=
  ⟨by decide, (C8_event_delete_cascade dbC8 1 plC8 (by decide)).2.2.1⟩

/-- C2: the quick-goal endpoint records the goal minute as
`max 1 ⌊(now - start) / 60⌋` when the match has a start time (`/` is
floor division: the divisor is positive) and as `1` otherwise. -/
theorem C2_quick_goal_minute (db : DB) (pid jid : Nat) (time : String) (now : Int)
    (partida : Partida) (jogador : Jogador)
    (hp : db.partidas.find? (fun p => p.id == pid) = some partida)
    (hj : db.jogadores.find? (fun j => j.id == jid) = some jogador)
    (ht : time = "A" ∨ time = "B") :
    ∃ gol : Gol,
      (marcar_gol_rapido pid jid time now none db).2 = .ok 200 gol ∧
      (marcar_gol_rapido pid jid time now none db).1.gols = db.gols ++ [gol] ∧
      gol.minuto = (match partida.horario_inicio with
        | some h0 => max 1 ((now - h0) / 60)
        | none => 1) := by
  unfold marcar_gol_rapido
  rw [hp, hj]
  dsimp only
  rw [if_neg (show ¬((time != "A" && time != "B") = true) by
    rcases ht with h | h <;> simp [h])]
  cases hini : partida.horario_inicio with
  | none => exact ⟨_, rfl, rfl, rfl⟩
  | some h0 =>
    refine ⟨_, rfl, rfl, ?_⟩
    show max 1 ((now - h0).tdiv 60) = max 1 ((now - h0) / 60)
    exact max_one_tdiv_eq_max_one_ediv (now - h0)

theorem C2_quick_goal_minute_witness :
    dbC2.partidas.find? (fun p => p.id == 4) = some pC2 ∧
    dbC2.jogadores.find? (fun j => j.id == 9) = some jC2 ∧
    ∃ gol : Gol,
      (marcar_gol_rapido 4 9 "B" 520 none dbC2).2 = .ok 200 gol ∧
      (marcar_gol_rapido 4 9 "B" 520 none dbC2).1.gols = dbC2.gols ++ [gol] ∧
      gol.minuto = (match pC2.horario_inicio with
        | some h0 => max 1 ((520 - h0) / 60)
        | none => 1) :=
  ⟨by decide, by decide,
   C2_quick_goal_minute dbC2 4 9 "B" 520 pC2 jC2 (by decide) (by decide) (Or.inr rfl)⟩

/-- C9: the goal update endpoint does not validate the new team side: for
a stored goal (of side `A` or `B`) whose parent match exists, an update
to any different string `t` is accepted with HTTP 200, decrements the old
side's counter, and increments `gols_time_a` exactly when `t = "A"` and
`gols_time_b` for every other `t`. -/
theorem C9_update_accepts_any_side (db : DB) (gol_id : Nat) (t : String) (now : Int)
    (gol : Gol) (partida : Partida)
    (hg : db.gols.find? (fun g => g.id == gol_id) = some gol)
    (hp : db.partidas.find? (fun p => p.id == gol.partida_id) = some partida)
    (_hold : gol.time = "A" ∨ gol.time = "B")
    (hne : t ≠ gol.time) :
    (atualizar_gol gol_id { minuto := none, time := some t, descricao := none }
        now none db).2 =
      .ok 200 { gol with time := t } ∧
    ∀ q ∈ (atualizar_gol gol_id { minuto := none, time := some t, descricao := none }
        now none db).1.partidas,
      q.id = gol.partida_id →
        q.gols_time_a = partida.gols_time_a
          - (if gol.time = "A" then 1 else 0) + (if t = "A" then 1 else 0) ∧
        q.gols_time_b = partida.gols_time_b
          - (if gol.time = "A" then 0 else 1) + (if t = "A" then 0 else 1) := by
  unfold atualizar_gol
  rw [hg]
  dsimp only
  rw [if_pos (show (t != gol.time) = true by simpa using hne)]
  rw [hp]
  constructor
  · rfl
  · intro q hq hqid
    dsimp only at hq
    rcases mem_updateById Partida.id gol.partida_id _ db.partidas q hq with rfl | ⟨_, hqne⟩
    · by_cases h1 : gol.time = "A" <;> by_cases h2 : t = "A"
      · exact absurd (h2.trans h1.symm) hne
      · constructor <;> simp [touchPartida, h1, h2]
      · constructor <;> simp [touchPartida, h1, h2]
      · constructor <;> simp [touchPartida, h1, h2]
    · exact absurd hqid hqne

theorem C9_update_accepts_any_side_witness :
    dbC9.gols.find? (fun g => g.id == 2) = some gC9 ∧
    (atualizar_gol 2 { minuto := none, time := some "C", descricao := none }
        77 none dbC9).2 =
      .ok 200 { gC9 with time := "C" } :=
  ⟨by decide,
   (C9_update_accepts_any_side dbC9 2 "C" 77 gC9 pC9 (by decide) (by decide)
     (Or.inl rfl) (by decide)).1⟩

/-- C3 counterexample: `criar_jogador` has no try/except around its
write; on a persistence failure the exception escapes the handler instead
of surfacing as an HTTP 400 client error. -/
theorem C3_counterexample :
    (criar_jogador jcC3 0 (some "falha de disco") dbC3).2 =
      HandlerResult.unhandled "falha de disco" := rfl

/-- C3 (amended): every write handler of the goal (`gols.py`), match
(`partidas.py`) and event (`peladas.py`) route modules — create, update
and delete of each resource, the start/finish and clock-control actions
(PATCH and POST variants) and the quick-goal shortcut — catches
persistence failures, rolls back (store unchanged) and returns HTTP 400
carrying the underlying message; the player write handlers (`create`,
`update`, `soft-delete` in `jogadores.py`) have no local handler and let
the exception escape, though the store is still left unchanged. -/
theorem C3_amended_failure_isolation :
    (∀ (gol : GolCreate) (now : Int),
      isolatesFailure (criar_gol gol now) "Erro ao registrar gol: ") ∧
    (∀ (gol_id : Nat) (u : GolUpdate) (now : Int),
      isolatesFailure (atualizar_gol gol_id u now) "Erro ao atualizar gol: ") ∧
    (∀ (gol_id : Nat) (now : Int),
      isolatesFailure (deletar_gol gol_id now) "Erro ao deletar gol: ") ∧
    (∀ (body : PartidaCreate) (now : Int),
      isolatesFailure (criar_partida body now) "Erro ao criar partida: ") ∧
    (∀ (pid : Nat) (u : PartidaUpdate) (now : Int),
      isolatesFailure (atualizar_partida pid u now) "Erro ao atualizar partida: ") ∧
    (∀ pid : Nat, isolatesFailure (deletar_partida pid) "Erro ao deletar partida: ") ∧
    (∀ (pid : Nat) (now : Int),
      isolatesFailure (iniciar_partida pid now) "Erro ao iniciar partida: ") ∧
    (∀ (pid : Nat) (now : Int),
      isolatesFailure (finalizar_partida pid now) "Erro ao finalizar partida: ") ∧
    (∀ (pid : Nat) (acao : String) (now : Int),
      isolatesFailure (atualizar_cronometro pid acao now) "Erro ao controlar cronômetro: ") ∧
    (∀ (pid : Nat) (acao? : Option String) (now : Int),
      isolatesFailure (atualizar_cronometro_post pid acao? now)
        "Erro ao controlar cronômetro: ") ∧
    (∀ (pid jid : Nat) (time : String) (now : Int),
      isolatesFailure (marcar_gol_rapido pid jid time now) "Erro ao marcar gol: ") ∧
    (∀ (body : PeladaCreate) (now : Int),
      isolatesFailure (criar_pelada body now) "Erro ao criar pelada: ") ∧
    (∀ (pid : Nat) (u : PeladaUpdate) (now : Int),
      isolatesFailure (atualizar_pelada pid u now) "Erro ao atualizar pelada: ") ∧
    (∀ pid : Nat, isolatesFailure (deletar_pelada pid) "Erro ao deletar pelada: ") ∧
    (∀ (j : JogadorCreate) (now : Int), escapesFailure (criar_jogador j now)) ∧
    (∀ (jid : Nat) (u : JogadorUpdate), escapesFailure (atualizar_jogador jid u)) ∧
    (∀ jid : Nat, escapesFailure (deletar_jogador jid)) := by
  have hcron : ∀ (pid : Nat) (acao : String) (now : Int),
      isolatesFailure (atualizar_cronometro pid acao now)
        "Erro ao controlar cronômetro: " := by
    intro pid acao now db msg
    unfold atualizar_cronometro
    cases hp : db.partidas.find? (fun p => p.id == pid) with
    | none => exact ⟨rfl, fun c m hc => by simp at hc, fun hch => absurd rfl hch⟩
    | some partida =>
      refine ⟨rfl, ?_, fun _ => rfl⟩
      intro c m hc
      cases c <;> simp at hc
  refine ⟨?_, ?_, ?_, ?_, ?_, ?_, ?_, ?_, hcron, ?_, ?_, ?_, ?_, ?_, ?_, ?_, ?_⟩
  · intro gol now db msg
    unfold criar_gol
    cases hp : db.partidas.find? (fun p => p.id == gol.partida_id) with
    | none => exact ⟨rfl, fun c m hc => by simp at hc, fun hch => absurd rfl hch⟩
    | some partida =>
    cases hj : db.jogadores.find? (fun j => j.id == gol.jogador_id) with
    | none => exact ⟨rfl, fun c m hc => by simp at hc, fun hch => absurd rfl hch⟩
    | some jogador =>
    dsimp only
    by_cases htv : (gol.time != "A" && gol.time != "B") = true
    · refine ⟨?_, ?_, ?_⟩
      · rw [if_pos htv]
      · intro c m hc
        rw [if_pos htv] at hc
        simp at hc
      · intro hch
        rw [if_pos htv] at hch
        exact absurd rfl hch
    · refine ⟨?_, ?_, ?_⟩
      · rw [if_neg htv]
      · intro c m hc
        rw [if_neg htv] at hc
        cases c <;> simp at hc
      · intro _
        rw [if_neg htv]
  · intro gol_id u now db msg
    unfold atualizar_gol
    cases hg : db.gols.find? (fun g => g.id == gol_id) with
    | none => exact ⟨rfl, fun c m hc => by simp at hc, fun hch => absurd rfl hch⟩
    | some gol =>
    dsimp only
    cases hu : u.time with
    | none =>
      refine ⟨rfl, ?_, fun _ => rfl⟩
      intro c m hc
      cases c <;> simp at hc
    | some t =>
    dsimp only
    by_cases htc : (t != gol.time) = true
    · cases hp : db.partidas.find? (fun p => p.id == gol.partida_id) with
      | none =>
        refine ⟨?_, ?_, ?_⟩
        · rw [if_pos htc]
        · intro c m hc
          rw [if_pos htc] at hc
          simp at hc
        · intro hch
          rw [if_pos htc] at hch
          exact absurd rfl hch
      | some partida =>
        refine ⟨?_, ?_, ?_⟩
        · rw [if_pos htc]
        · intro c m hc
          rw [if_pos htc] at hc
          cases c <;> simp at hc
        · intro _
          rw [if_pos htc]
    · refine ⟨?_, ?_, ?_⟩
      · rw [if_neg htc]
      · intro c m hc
        rw [if_neg htc] at hc
        cases c <;> simp at hc
      · intro _
        rw [if_neg htc]
  · intro gol_id now db msg
    unfold deletar_gol
    cases hg : db.gols.find? (fun g => g.id == gol_id) with
    | none => exact ⟨rfl, fun c m hc => by simp at hc, fun hch => absurd rfl hch⟩
    | some gol =>
    dsimp only
    cases hp : db.partidas.find? (fun p => p.id == gol.partida_id) with
    | none => exact ⟨rfl, fun c m hc => by simp at hc, fun hch => absurd rfl hch⟩
    | some partida =>
      refine ⟨rfl, ?_, fun _ => rfl⟩
      intro c m hc
      cases c <;> simp at hc
  · intro body now db msg
    unfold criar_partida
    cases hp : db.peladas.find? (fun pl => pl.id == body.pelada_id) with
    | none => exact ⟨rfl, fun c m hc => by simp at hc, fun hch => absurd rfl hch⟩
    | some pelada =>
      refine ⟨rfl, ?_, fun _ => rfl⟩
      intro c m hc
      cases c <;> simp at hc
  · intro pid u now db msg
    unfold atualizar_partida
    cases hp : db.partidas.find? (fun p => p.id == pid) with
    | none => exact ⟨rfl, fun c m hc => by simp at hc, fun hch => absurd rfl hch⟩
    | some partida =>
      refine ⟨rfl, ?_, fun _ => rfl⟩
      intro c m hc
      cases c <;> simp at hc
  · intro pid db msg
    unfold deletar_partida
    cases hp : db.partidas.find? (fun p => p.id == pid) with
    | none => exact ⟨rfl, fun c m hc => by simp at hc, fun hch => absurd rfl hch⟩
    | some partida =>
      refine ⟨rfl, ?_, fun _ => rfl⟩
      intro c m hc
      cases c <;> simp at hc
  · intro pid now db msg
    unfold iniciar_partida
    cases hp : db.partidas.find? (fun p => p.id == pid) with
    | none => exact ⟨rfl, fun c m hc => by simp at hc, fun hch => absurd rfl hch⟩
    | some partida =>
      refine ⟨rfl, ?_, fun _ => rfl⟩
      intro c m hc
      cases c <;> simp at hc
  · intro pid now db msg
    unfold finalizar_partida
    cases hp : db.partidas.find? (fun p => p.id == pid) with
    | none => exact ⟨rfl, fun c m hc => by simp at hc, fun hch => absurd rfl hch⟩
    | some partida =>
      refine ⟨rfl, ?_, fun _ => rfl⟩
      intro c m hc
      cases c <;> simp at hc
  · intro pid acao? now db msg
    unfold atualizar_cronometro_post
    cases acao? with
    | none => exact ⟨rfl, fun c m hc => by simp at hc, fun hch => absurd rfl hch⟩
    | some acao =>
    dsimp only
    by_cases hv : (acao != "play" && acao != "pause" && acao != "reset") = true
    · refine ⟨?_, ?_, ?_⟩
      · rw [if_pos hv]
      · intro c m hc
        rw [if_pos hv] at hc
        simp at hc
      · intro hch
        rw [if_pos hv] at hch
        exact absurd rfl hch
    · have h1 := hcron pid acao now db msg
      refine ⟨?_, ?_, ?_⟩
      · rw [if_neg hv]
        exact h1.1
      · intro c m
        rw [if_neg hv]
        exact h1.2.1 c m
      · intro hch
        rw [if_neg hv] at hch ⊢
        exact h1.2.2 hch
  · intro pid jid time now db msg
    unfold marcar_gol_rapido
    cases hp : db.partidas.find? (fun p => p.id == pid) with
    | none => exact ⟨rfl, fun c m hc => by simp at hc, fun hch => absurd rfl hch⟩
    | some partida =>
    cases hj : db.jogadores.find? (fun j => j.id == jid) with
    | none => exact ⟨rfl, fun c m hc => by simp at hc, fun hch => absurd rfl hch⟩
    | some jogador =>
    dsimp only
    by_cases htv : (time != "A" && time != "B") = true
    · refine ⟨?_, ?_, ?_⟩
      · rw [if_pos htv]
      · intro c m hc
        rw [if_pos htv] at hc
        simp at hc
      · intro hch
        rw [if_pos htv] at hch
        exact absurd rfl hch
    · refine ⟨?_, ?_, ?_⟩
      · rw [if_neg htv]
      · intro c m hc
        rw [if_neg htv] at hc
        cases c <;> simp at hc
      · intro _
        rw [if_neg htv]
  · intro body now db msg
    unfold criar_pelada
    refine ⟨rfl, ?_, fun _ => rfl⟩
    intro c m hc
    cases c <;> simp at hc
  · intro pid u now db msg
    unfold atualizar_pelada
    cases hp : db.peladas.find? (fun pl => pl.id == pid) with
    | none => exact ⟨rfl, fun c m hc => by simp at hc, fun hch => absurd rfl hch⟩
    | some pelada =>
      refine ⟨rfl, ?_, fun _ => rfl⟩
      intro c m hc
      cases c <;> simp at hc
  · intro pid db msg
    unfold deletar_pelada
    cases hp : db.peladas.find? (fun pl => pl.id == pid) with
    | none => exact ⟨rfl, fun c m hc => by simp at hc, fun hch => absurd rfl hch⟩
    | some pelada =>
      refine ⟨rfl, ?_, fun _ => rfl⟩
      intro c m hc
      cases c <;> simp at hc
  · intro j now db msg
    unfold criar_jogador
    cases hf : db.jogadores.find? (fun x => x.email == j.email) with
    | some _ => exact ⟨rfl, fun hch => absurd rfl hch⟩
    | none => exact ⟨rfl, fun _ => rfl⟩
  · intro jid u db msg
    unfold atualizar_jogador
    cases hf : db.jogadores.find? (fun x => x.id == jid) with
    | none => exact ⟨rfl, fun hch => absurd rfl hch⟩
    | some jogador => exact ⟨rfl, fun _ => rfl⟩
  · intro jid db msg
    unfold deletar_jogador
    cases hf : db.jogadores.find? (fun x => x.id == jid) with
    | none => exact ⟨rfl, fun hch => absurd rfl hch⟩
    | some jogador => exact ⟨rfl, fun _ => rfl⟩

theorem C3_amended_failure_isolation_witness :
    (criar_gol gcC3 40 (some "falha") dbC3g).1 = dbC3g ∧
    (criar_gol gcC3 40 (some "falha") dbC3g).2 =
      .clientError 400 ("Erro ao registrar gol: " ++ "falha") :=
  ⟨(C3_amended_failure_isolation.1 gcC3 40 dbC3g "falha").1,
   (C3_amended_failure_isolation.1 gcC3 40 dbC3g "falha").2.2 (by decide)⟩

/-! ## Claim C1 -/

/-- C1 counterexample: starting from a fresh match (counters 0-0, no
goals), where the claimed per-side invariant holds, creating a goal on
side `A` and then updating its side to `"C"` (accepted: the update
endpoint does not validate the side) leaves `gols_time_b = 1` while no
stored goal of the match has side `B` — the claimed invariant fails. -/
theorem C1_counterexample :
    claimedScoreInvariant dbC1 ∧ wfGolIds dbC1 ∧ scoreInvariant dbC1 ∧
    ¬ claimedScoreInvariant (applyGolOps dbC1 opsC1) := by decide

/-- C1 (amended): for every store with unique goal ids whose counters
satisfy the invariant the code maintains — `gols_time_a` counts the
match's goals of side `A` and `gols_time_b` counts its goals of side
other than `A` — every sequence of goal create/update/delete requests
(with any commit outcomes) preserves that invariant at every point.  For
goals whose sides stay within `{A, B}` this is the claimed per-side
invariant. -/
theorem C1_amended_score_invariant (db : DB) (ops : List GolOp)
    (hw : wfGolIds db) (hs : scoreInvariant db) :
    scoreInvariant (applyGolOps db ops) :=
  (applyGolOps_inv db ops ⟨hw, hs⟩).2

theorem C1_amended_score_invariant_witness :
    wfGolIds dbC1 ∧ scoreInvariant dbC1 ∧ scoreInvariant (applyGolOps dbC1 opsC1) :=
  ⟨by decide, by decide,
   C1_amended_score_invariant dbC1 opsC1 (by decide) (by decide)⟩

end Peladas
